import Mathlib

/-!
Verification development for the conversational-chat backend
(`src/backend/app`): a shallow embedding of the persistence model
(`models/session.py`, `models/message.py`), the generic CRUD layer
(`crud/base.py`, `crud/crud_session.py`) and the chat orchestrator
(`services/chat_service.py`), followed by theorems settling the spec's
claims about them.

Modelling conventions:
* UUIDs are natural numbers below 2^128; the store generates fresh ones
  from a counter (`DB.nextId`), reflecting uniqueness of `uuid.uuid4()`.
* Timestamps are natural numbers; `DB.now` is the store clock
  (`func.now()`), advanced by one tick at every commit, modelling a
  strictly monotone wall clock between separate commits.
* The relational store is a pair of row lists kept in insertion order
  (the store-default order used by unordered queries).
* The external model client is an oracle parameter: the streamed reply is
  a `StreamResult` (the chunk contents followed by an optional
  `ResponseError`), and the title call is an `Except String String`
  (`error` = the `ResponseError` the code catches).  Per the spec's model
  boundary, model failures surface as this distinguishable error.
-/

/-- Role enumeration from `app/models/message.py` (`MessageRole`): exactly
    the two variants `user` and `ai`. -/
inductive MessageRole
  | user
  | ai
deriving DecidableEq, Repr

/-- A row of the `sessions` table (`app/models/session.py`): id, title,
    `created_at` (default `func.now()` at insert) and `updated_at`
    (default `func.now()`, with `onupdate=func.now()`). -/
structure SessionRow where
  id : Nat
  title : String
  created_at : Nat
  updated_at : Nat
deriving DecidableEq, Repr

/-- A row of the `messages` table (`app/models/message.py`): id, the
    required `session_id` foreign key, role, content and `created_at`. -/
structure MessageRow where
  id : Nat
  session_id : Nat
  role : MessageRole
  content : String
  created_at : Nat
deriving DecidableEq, Repr

/-- The relational store state: the two tables in insertion order, the
    fresh-identifier source and the store clock. -/
structure DB where
  sessions : List SessionRow
  messages : List MessageRow
  nextId : Nat
  now : Nat
deriving DecidableEq, Repr

/-- The empty store. -/
def dbEmpty : DB := ⟨[], [], 0, 0⟩

/-! ## Model of Python's `uuid.UUID(str)` constructor

`CRUDMessage.create_with_session` and `CRUDMessage.get_by_session`
normalize a textual session id with `uuid.UUID(session_id)`
(`crud/crud_session.py` lines 43-44 and 57-58).  CPython's constructor
removes every occurrence of `urn:` and `uuid:`, strips braces from both
ends, removes all hyphens, requires exactly 32 remaining characters and
parses them as hexadecimal, raising `ValueError` otherwise.  The
separator-tolerant corner cases of Python's `int(s, 16)` (underscores,
surrounding whitespace) are not exercised by this repository and are
modelled as plain hexadecimal digits. -/

/-- Remove every occurrence of `pat` from `l` (Python `str.replace(pat, "")`),
    fuelled by the list length for structural recursion. -/
def removeSub (pat : List Char) : Nat → List Char → List Char
  | _, [] => []
  | 0, l => l
  | Nat.succ fuel, c :: rest =>
    if pat.isPrefixOf (c :: rest) then
      removeSub pat fuel ((c :: rest).drop pat.length)
    else
      c :: removeSub pat fuel rest

/-- Python `str.strip(chars)` for the brace set `{}`: drop every leading and
    trailing `{` or `}`. -/
def pyStripBraces (l : List Char) : List Char :=
  ((l.dropWhile fun c => c == '{' || c == '}').reverse.dropWhile
      fun c => c == '{' || c == '}').reverse

/-- Value of one hexadecimal digit, `none` for a non-hex character. -/
def hexVal (c : Char) : Option Nat :=
  if '0' ≤ c ∧ c ≤ '9' then some (c.toNat - '0'.toNat)
  else if 'a' ≤ c ∧ c ≤ 'f' then some (c.toNat - 'a'.toNat + 10)
  else if 'A' ≤ c ∧ c ≤ 'F' then some (c.toNat - 'A'.toNat + 10)
  else none

/-- Parse a list of hexadecimal digits, most significant first. -/
def hexListToNat (l : List Char) : Option Nat :=
  l.foldl
    (fun acc c =>
      match acc, hexVal c with
      | some n, some d => some (n * 16 + d)
      | _, _ => none)
    (some 0)

/-- Model of `uuid.UUID(s)`: `some` the 128-bit value on a syntactically
    valid UUID string, `none` where CPython raises `ValueError`. -/
def pyUUIDParse (s : String) : Option Nat :=
  let step1 := removeSub "urn:".data s.data.length s.data
  let step2 := removeSub "uuid:".data step1.length step1
  let hexChars := (pyStripBraces step2).filter (fun c => c != '-')
  if hexChars.length = 32 then hexListToNat hexChars else none

/-! ## Generic CRUD layer (`app/crud/base.py`)

`CRUDBase` is parameterized by the entity type; its behaviour at the two
concrete tables differs only through the column defaults of each model,
so the operations are embedded once per table.  All operations commit,
which advances the store clock by one tick. -/

/-- Embedding of `CRUDBase.get` bound to sessions (`base.py` lines 22-24):
    `query.filter(id == id).first()`. -/
def get_session (db : DB) (id : Nat) : Option SessionRow :=
  (db.sessions.filter fun s => s.id == id).head?

/-- Embedding of `CRUDBase.get` bound to messages. -/
def get_message (db : DB) (id : Nat) : Option MessageRow :=
  (db.messages.filter fun m => m.id == id).head?

/-- Embedding of `CRUDBase.get_multi` (`base.py` lines 26-34): offset/limit pagination
    over the store-default (insertion) order. -/
def get_multi {α : Type} (rows : List α) (skip limit : Nat) : List α :=
  (rows.drop skip).take limit

/-- Embedding of `CRUDBase.create` bound to sessions (`base.py` lines 36-43):
    insert a row from `SessionCreate(title=...)`; the column defaults stamp
    `id = uuid4()` and `created_at = updated_at = func.now()`; commit. -/
def create_session (db : DB) (title : String) : SessionRow × DB :=
  let row : SessionRow :=
    { id := db.nextId, title := title, created_at := db.now, updated_at := db.now }
  (row,
    { db with
        sessions := db.sessions ++ [row]
        nextId := db.nextId + 1
        now := db.now + 1 })

/-- The sparse change set accepted by `CRUDBase.update` for sessions:
    both `SessionUpdate` (one `title` field) and the raw dicts used by the
    orchestrator (`{"title": t}` and `{}`) reduce to an optional title. -/
structure SessionChanges where
  title : Option String
deriving DecidableEq, Repr

/-- Embedding of `CRUDBase.update` bound to sessions (`base.py` lines 45-64): set each
    supplied field on the loaded row, `db.add`, `db.commit`, `db.refresh`.
    SQLAlchemy's unit of work flushes only objects with modified
    attributes: with a non-empty change set an UPDATE statement is
    emitted and the `onupdate=func.now()` of `sessions.updated_at` fires;
    with an empty change set the object stays clean, the commit flushes
    nothing, no UPDATE is emitted and `updated_at` is left untouched
    (only the clock advances). -/
def update_session (db : DB) (sid : Nat) (changes : SessionChanges) : DB :=
  match changes.title with
  | none => { db with now := db.now + 1 }
  | some t =>
    { db with
        sessions := db.sessions.map fun s =>
          if s.id == sid then { s with title := t, updated_at := db.now } else s
        now := db.now + 1 }

/-- Embedding of `CRUDBase.remove` bound to sessions (`base.py` lines 66-72):
    `query.get(id)`; if present, `db.delete(obj)` and commit.  The
    `cascade="all, delete-orphan"` on `Session.messages`
    (`models/session.py` lines 22-26) deletes every message whose
    `session_id` references the removed session. -/
def remove_session (db : DB) (sid : Nat) : Option SessionRow × DB :=
  match (db.sessions.filter fun s => s.id == sid).head? with
  | none => (none, db)
  | some s =>
    (some s,
      { db with
          sessions := db.sessions.filter fun r => r.id != sid
          messages := db.messages.filter fun m => m.session_id != sid
          now := db.now + 1 })

/-- Embedding of `CRUDBase.remove` bound to messages (no cascade on this side). -/
def remove_message (db : DB) (mid : Nat) : Option MessageRow × DB :=
  match (db.messages.filter fun m => m.id == mid).head? with
  | none => (none, db)
  | some m =>
    (some m,
      { db with
          messages := db.messages.filter fun r => r.id != mid
          now := db.now + 1 })

/-! ## Session repository extras (`app/crud/crud_session.py`) -/

/-- Descending-by-`updated_at` comparison used by
    `order_by(desc(updated_at))`; ties keep store order (stable sort). -/
def sessGe (a b : SessionRow) : Prop := b.updated_at ≤ a.updated_at

instance : DecidableRel sessGe :=
  fun a b => inferInstanceAs (Decidable (b.updated_at ≤ a.updated_at))

instance : IsTotal SessionRow sessGe :=
  ⟨fun a b => Nat.le_total b.updated_at a.updated_at⟩

instance : IsTrans SessionRow sessGe :=
  ⟨fun _ _ _ h1 h2 => Nat.le_trans h2 h1⟩

/-- Embedding of `CRUDSession.get_all_sessions` (`crud_session.py` lines 16-20):
    all sessions ordered by most recently updated first. -/
def get_all_sessions (db : DB) : List SessionRow :=
  List.insertionSort sessGe db.sessions

/-- Containment of `needle` in `haystack` as contiguous sublists. -/
def containsSub (needle : List Char) : List Char → Bool
  | [] => needle.isEmpty
  | c :: rest => needle.isPrefixOf (c :: rest) || containsSub needle rest

/-- Character-wise lowercasing, the SQL `lower()` used by `ilike`. -/
def strLower (s : String) : String := ⟨s.data.map Char.toLower⟩

/-- The `ilike` pattern `%keyword%` (`crud_session.py` line 26):
    case-insensitive substring match of the keyword against the title.
    `like` metacharacters inside the keyword itself are not modelled. -/
def ilikeContains (title keyword : String) : Bool :=
  containsSub (strLower keyword).data (strLower title).data

/-- Embedding of `CRUDSession.search_by_title` (`crud_session.py` lines 22-26):
    sessions whose title contains the keyword case-insensitively, ordered
    by most recently updated first. -/
def search_by_title (db : DB) (keyword : String) : List SessionRow :=
  List.insertionSort sessGe (db.sessions.filter fun s => ilikeContains s.title keyword)

/-! ## Message repository (`app/crud/crud_session.py`, `CRUDMessage`) -/

/-- The `Union[str, uuid.UUID]` session-id argument of the message
    repository methods. -/
inductive SessionIdArg
  | fromString (s : String)
  | typed (v : Nat)
deriving DecidableEq, Repr

/-- The `isinstance(session_id, str)` normalization at the top of
    `create_with_session` and `get_by_session`: a string is parsed with
    `uuid.UUID` (which may raise), a typed id passes through. -/
def normalizeSessionId : SessionIdArg → Option Nat
  | .fromString s => pyUUIDParse s
  | .typed v => some v

/-- Modelled from the spec: `app/schemas/message.py` is absent from the
    source tree (only imported); per the data model and every usage in
    `chat_service.py` and the tests, a message-create DTO carries exactly a
    role and a content string. -/
structure MessageCreate where
  role : MessageRole
  content : String
deriving DecidableEq, Repr

/-- The insertion performed by `create_with_session` after normalization
    (`crud_session.py` lines 46-50): build the row from the DTO fields plus
    the session id; defaults stamp `id = uuid4()` and
    `created_at = func.now()`; commit. -/
def insertMessageRow (db : DB) (sid : Nat) (objIn : MessageCreate) : MessageRow × DB :=
  let row : MessageRow :=
    { id := db.nextId, session_id := sid, role := objIn.role,
      content := objIn.content, created_at := db.now }
  (row,
    { db with
        messages := db.messages ++ [row]
        nextId := db.nextId + 1
        now := db.now + 1 })

/-- The Python error raised on an invalid UUID string. -/
def uuidValueError : String := "ValueError: badly formed hexadecimal UUID string"

/-- Embedding of `CRUDMessage.create_with_session` (`crud_session.py` lines 36-50):
    normalize the session id (raising before any store access on an invalid
    string), then insert and commit.  An `error` result carries no store
    state: the store is untouched. -/
def create_with_session (db : DB) (objIn : MessageCreate) (sid : SessionIdArg) :
    Except String (MessageRow × DB) :=
  match normalizeSessionId sid with
  | none => .error uuidValueError
  | some v => .ok (insertMessageRow db v objIn)

/-- Ascending-by-`created_at` comparison used by `order_by(created_at)`;
    ties keep store (insertion) order. -/
def msgLe (a b : MessageRow) : Prop := a.created_at ≤ b.created_at

instance : DecidableRel msgLe :=
  fun a b => inferInstanceAs (Decidable (a.created_at ≤ b.created_at))

/-- Embedding of `CRUDMessage.get_by_session` (`crud_session.py` lines 52-62):
    normalize the session id, then return the session's messages ordered by
    creation time. -/
def get_by_session (db : DB) (sid : SessionIdArg) : Except String (List MessageRow) :=
  match normalizeSessionId sid with
  | none => .error uuidValueError
  | some v =>
    .ok (List.insertionSort msgLe (db.messages.filter fun m => m.session_id == v))

/-! ## Chat orchestrator (`app/services/chat_service.py`)

The external model client appears as oracle parameters: `StreamResult`
for the streamed main reply and an `Except String String` for the
non-streaming title call (`error` = the `ResponseError` raised by the
client, the distinguishable model failure of the spec's model boundary). -/

/-- Outcome of `ollama.chat(..., stream=True)`: the contents of the
    streamed parts in arrival order, and `some msg` when the client raises
    `ResponseError` (with message `msg`) after those parts. -/
structure StreamResult where
  chunks : List String
  failure : Option String
deriving DecidableEq, Repr

/-- One dictionary yielded by `stream_ai_response`: either an SSE chunk
    item or the error item produced by its `except ResponseError` handler. -/
inductive SSEItem
  | chunk (content : String)
  | sseError (msg : String)
deriving DecidableEq, Repr

/-- Embedding of `ChatService.stream_ai_response` (`chat_service.py` lines 99-115):
    yield `{"chunk": content}` for every streamed part with non-empty
    content; a `ResponseError` raised by the client is caught inside the
    generator and yielded as a final `{"error": ...}` item - it does not
    escape to the caller. -/
def stream_ai_response (st : StreamResult) : List SSEItem :=
  (st.chunks.filter fun content => content != "").map SSEItem.chunk
    ++ match st.failure with
       | some e => [SSEItem.sseError ("Ollama streaming error: " ++ e)]
       | none => []

/-- One step of the consumption loop of `process_chat_request` (line 72):
    `full_ai_response += chunk.get("chunk", "")`; an error item carries no
    `"chunk"` key and contributes the empty string. -/
def sseStep (acc : String) (it : SSEItem) : String :=
  match it with
  | .chunk content => acc ++ content
  | .sseError _ => acc ++ ""

/-- The consumption loop of `process_chat_request` (lines 70-72). -/
def sseConcat (items : List SSEItem) : String :=
  items.foldl sseStep ""

/-- Python `str.strip()`: drop leading and trailing whitespace. -/
def pyStrip (s : String) : String :=
  ⟨((s.data.dropWhile Char.isWhitespace).reverse.dropWhile Char.isWhitespace).reverse⟩

/-- Embedding of `ChatService.generate_session_title` (`chat_service.py` lines 117-129):
    return the model's title stripped of surrounding whitespace; on
    `ResponseError` fall back to the literal "Untitled Conversation". -/
def generate_session_title (titleResult : Except String String) : String :=
  match titleResult with
  | .ok content => pyStrip content
  | .error _ => "Untitled Conversation"

/-- Embedding of `ChatRequest` (`schemas/session.py` lines 38-43): a prompt and an
    optional typed session id. -/
structure ChatRequest where
  prompt : String
  sessionId : Option Nat
deriving DecidableEq, Repr

/-- Embedding of `ChatResponse` (`schemas/session.py` lines 45-51). -/
structure ChatResponse where
  ai_response : String
  sessionId : Nat
  sessionTitle : String
deriving DecidableEq, Repr

/-- The error conditions of the workflow, following the spec's taxonomy.
    `process_chat_request` re-raises every exception as `RuntimeError`:
    `modelFailure` for its `except ResponseError` branch
    ("Ollama error: ...") and `serviceFailure` for the catch-all
    `except Exception` branch ("Service error: ...").  `notFound` is the
    taxonomy's distinguishable session-lookup-miss condition; the code
    raises it internally as `ValueError` but never delivers it. -/
inductive ChatError
  | notFound (msg : String)
  | modelFailure (msg : String)
  | serviceFailure (msg : String)
deriving DecidableEq, Repr

/-- Steps 2-8 of `process_chat_request` (`chat_service.py` lines 62-91),
    shared by the new-session and existing-session paths: persist the user
    message, load the history for the model, consume the stream into the
    full reply, persist the AI message, on a new session generate and apply
    the title, perform the final empty update, and build the response.
    Every repository call here uses the typed session id (the code passes
    `str(session_id)`, the canonical rendering of the loaded UUID, which
    re-parses to the same value). -/
def chatTurnBody (db : DB) (sessionId : Nat) (sessionTitle : String) (isNew : Bool)
    (req : ChatRequest) (st : StreamResult) (titleResult : Except String String) :
    Except ChatError ChatResponse × DB :=
  let db2 := (insertMessageRow db sessionId ⟨MessageRole.user, req.prompt⟩).2
  let _hist := get_by_session db2 (SessionIdArg.typed sessionId)
  let full := sseConcat (stream_ai_response st)
  let db3 := (insertMessageRow db2 sessionId ⟨MessageRole.ai, full⟩).2
  if isNew then
    let t := generate_session_title titleResult
    let db4 := update_session db3 sessionId ⟨some t⟩
    let db5 := update_session db4 sessionId ⟨none⟩
    (Except.ok ⟨full, sessionId, t⟩, db5)
  else
    let db5 := update_session db3 sessionId ⟨none⟩
    (Except.ok ⟨full, sessionId, sessionTitle⟩, db5)

/-- Embedding of `ChatService.process_chat_request` (`chat_service.py` lines 39-97).
    With no session id, create a session titled "New Conversation";
    otherwise load it, and on a miss raise
    `ValueError(f"Session {id} not found")`, which the catch-all
    `except Exception` handler rewraps as
    `RuntimeError(f"Service error: {e}")` - the generic service failure.
    The returned store state reflects every commit performed before the
    failure (each repository call commits independently). -/
def process_chat_request (db : DB) (req : ChatRequest) (st : StreamResult)
    (titleResult : Except String String) : Except ChatError ChatResponse × DB :=
  match req.sessionId with
  | none =>
    let created := create_session db "New Conversation"
    chatTurnBody created.2 created.1.id created.1.title true req st titleResult
  | some sid =>
    match get_session db sid with
    | none =>
      (Except.error
        (ChatError.serviceFailure ("Service error: Session " ++ toString sid ++ " not found")),
        db)
    | some s => chatTurnBody db s.id s.title false req st titleResult

/-! ## Session grouping (`ChatService.get_sessions_grouped_by_time`) -/

/-- The `SessionSchema(id=..., title=...)` projection built for each
    grouped session (`chat_service.py` line 159). -/
structure SessionItem where
  id : Nat
  title : String
deriving DecidableEq, Repr

/-- The three buckets returned by `get_sessions_grouped_by_time`. -/
structure GroupedSessions where
  today : List SessionItem
  yesterday : List SessionItem
  previous30 : List SessionItem
deriving DecidableEq, Repr

/-- The fetch at the top of `get_sessions_grouped_by_time` (lines 139-142):
    `if query:` is false for both `None` and the empty string, so those fall
    back to `get_all_sessions`. -/
def fetchSessions (db : DB) (query : Option String) : List SessionRow :=
  match query with
  | some q => if q = "" then get_all_sessions db else search_by_title db q
  | none => get_all_sessions db

/-- The loop body of `get_sessions_grouped_by_time` (lines 154-165):
    compare the session's creation date with today, yesterday and
    thirty-days-ago; anything matching no branch is dropped.  Dates are
    integer day numbers; `dayOfTime` is the `datetime.date()` conversion of
    a stored timestamp. -/
def groupStep (today : Int) (dayOfTime : Nat → Int) (g : GroupedSessions)
    (sess : SessionRow) : GroupedSessions :=
  let d := dayOfTime sess.created_at
  let item : SessionItem := ⟨sess.id, sess.title⟩
  if d = today then { g with today := g.today ++ [item] }
  else if d = today - 1 then { g with yesterday := g.yesterday ++ [item] }
  else if today - 30 ≤ d ∧ d < today - 1 then { g with previous30 := g.previous30 ++ [item] }
  else g

/-- Embedding of `ChatService.get_sessions_grouped_by_time` (`chat_service.py` lines
    131-169): fetch all or keyword-filtered sessions, then bucket each by
    creation date against the caller's current local date. -/
def get_sessions_grouped_by_time (db : DB) (query : Option String) (today : Int)
    (dayOfTime : Nat → Int) : GroupedSessions :=
  (fetchSessions db query).foldl (groupStep today dayOfTime) ⟨[], [], []⟩

/-- Sequential message creation: fold `create_with_session` (typed id, which
    never fails) over a list of DTOs, keeping the store. -/
def messagesCreateAll : DB → Nat → List MessageCreate → DB
  | db, _, [] => db
  | db, sid, it :: rest => messagesCreateAll (insertMessageRow db sid it).2 sid rest

/-- The rows produced by `messagesCreateAll`, in creation order. -/
def createdRows : DB → Nat → List MessageCreate → List MessageRow
  | _, _, [] => []
  | db, sid, it :: rest =>
    (insertMessageRow db sid it).1 :: createdRows (insertMessageRow db sid it).2 sid rest

/-- The projection applied to each bucketed session. -/
def sessionItemOf (s : SessionRow) : SessionItem := ⟨s.id, s.title⟩

/-- Concrete three-session table used by several witnesses. -/
def rowsW : List SessionRow :=
  [⟨10, "Docker Tutorial", 0, 5⟩, ⟨11, "FastAPI Best Practices", 1, 7⟩,
   ⟨12, "Docker Compose Setup", 2, 6⟩]

/-- Concrete store with one session owning two messages and one foreign
message, used by witnesses. -/
def dbW6 : DB :=
  ⟨[⟨0, "A", 0, 0⟩, ⟨1, "B", 0, 0⟩],
   [⟨2, 0, MessageRole.user, "hello", 1⟩, ⟨3, 0, MessageRole.ai, "hi", 2⟩,
    ⟨4, 1, MessageRole.user, "other", 3⟩],
   5, 4⟩

/-- Concrete store with two docker-titled sessions, used by witnesses. -/
def dbW7 : DB := ⟨rowsW, [], 13, 8⟩

/-! ## Theorems -/

/-- C1.  The claim reads: if the model client fails during the main reply
generation, the turn fails with the generic service failure and no AI
message is persisted.  The code does the opposite: `stream_ai_response`
catches the client's `ResponseError` inside the generator and yields it as
an `{"error": ...}` item, which the consumption loop of
`process_chat_request` silently skips, so the turn succeeds and an `ai`
message assembled from the chunk items alone (here: empty) is persisted -
the `except ResponseError` handler of `process_chat_request` is
unreachable for the streaming call.  Concretely: from an empty store, a
new-session turn whose model stream raises immediately returns success
with an empty reply, and the store holds the user message and an empty
`ai` message. -/
theorem c1_stream_failure_swallowed :
    process_chat_request dbEmpty ⟨"hi", none⟩ ⟨[], some "model down"⟩ (Except.ok "My Title")
      = (Except.ok ⟨"", 0, "My Title"⟩,
          ⟨[⟨0, "My Title", 0, 3⟩],
           [⟨1, 0, MessageRole.user, "hi", 1⟩, ⟨2, 0, MessageRole.ai, "", 2⟩],
           3, 5⟩)
    ∧ ((process_chat_request dbEmpty ⟨"hi", none⟩ ⟨[], some "model down"⟩
          (Except.ok "My Title")).2.messages.filter fun m => m.role == MessageRole.ai)
        = [⟨2, 0, MessageRole.ai, "", 2⟩] := by
  exact ⟨rfl, rfl⟩

/-- C3.  The claim reads: an update with an empty change set still commits
and triggers the store's on-update side effect, strictly increasing
`updated_at`.  The code violates this: `CRUDBase.update` with an empty
dict sets no attribute, so `db.add`/`db.commit` on the clean loaded object
flushes nothing, no UPDATE statement is emitted, and the
`onupdate=func.now()` refresh of `sessions.updated_at` never fires - the
orchestrator's `# Triggers onupdate` recency bump (line 85 of
`chat_service.py`) is a no-op.  Concretely: create a session, then update
it with the empty change set; the session rows are bit-identical (its
`updated_at` still equals `created_at`) even though the clock advanced
past them. -/
theorem c3_empty_update_does_not_touch :
    (update_session (create_session dbEmpty "Test").2 0 ⟨none⟩).sessions
        = (create_session dbEmpty "Test").2.sessions
    ∧ (update_session (create_session dbEmpty "Test").2 0 ⟨none⟩).sessions
        = [⟨0, "Test", 0, 0⟩]
    ∧ (update_session (create_session dbEmpty "Test").2 0 ⟨none⟩).now = 2 := by
  exact ⟨rfl, rfl, rfl⟩

/-- C9: `get_multi` pagination with `skip = 0, limit = k` and then
`skip = k, limit = k` yields disjoint identifier sets that together cover
all rows whenever `2 * k` is at least the row count. -/
theorem c9_pagination_partition {α : Type} (getId : α → Nat) (rows : List α) (k : Nat)
    (hnd : (rows.map getId).Nodup) (hk : rows.length ≤ 2 * k) :
    List.Disjoint ((get_multi rows 0 k).map getId) ((get_multi rows k k).map getId)
    ∧ get_multi rows 0 k ++ get_multi rows k k = rows := by
  have h2 : get_multi rows 0 k = rows.take k := by simp [get_multi]
  have h3 : get_multi rows k k = rows.drop k := by
    have hlen : (rows.drop k).length ≤ k := by
      simp only [List.length_drop]
      omega
    simp [get_multi, List.take_of_length_le hlen]
  refine ⟨?_, by rw [h2, h3, List.take_append_drop]⟩
  rw [h2, h3, List.map_take, List.map_drop]
  have hsplit := hnd
  rw [← List.take_append_drop k (rows.map getId), List.nodup_append] at hsplit
  exact hsplit.2.2

/-- Witness for C9 at a three-row table and `k = 2`. -/
theorem c9_pagination_partition_witness :
    List.Disjoint ((get_multi rowsW 0 2).map SessionRow.id)
        ((get_multi rowsW 2 2).map SessionRow.id)
    ∧ get_multi rowsW 0 2 ++ get_multi rowsW 2 2 = rowsW :=
  c9_pagination_partition SessionRow.id rowsW 2 (by decide) (by decide)

/-- C6: removing an existing session returns it and cascades: afterwards no
message of that session remains in the store, and (message identifiers
being unique) a `get` on any of its former messages' ids is absent. -/
theorem c6_cascade_delete (db : DB) (sid : Nat) (s : SessionRow)
    (hs : get_session db sid = some s)
    (hnd : (db.messages.map MessageRow.id).Nodup) :
    (remove_session db sid).1 = some s
    ∧ ((remove_session db sid).2.messages.filter fun m => m.session_id == sid) = []
    ∧ ∀ m ∈ db.messages, m.session_id = sid → get_message (remove_session db sid).2 m.id = none := by
  have hrem : remove_session db sid
      = (some s,
          { db with
              sessions := db.sessions.filter fun r => r.id != sid
              messages := db.messages.filter fun m => m.session_id != sid
              now := db.now + 1 }) := by
    unfold remove_session
    unfold get_session at hs
    rw [hs]
  refine ⟨by rw [hrem], ?_, ?_⟩
  · rw [hrem]
    simp only [List.filter_filter]
    rw [List.filter_eq_nil_iff]
    intro m _
    simp only [Bool.and_eq_true, beq_iff_eq, bne_iff_ne, ne_eq, not_and]
    intro h1 h2
    exact h2 h1
  · intro m hm hmsid
    rw [hrem]
    unfold get_message
    simp only
    rw [List.head?_eq_none_iff, List.filter_filter, List.filter_eq_nil_iff]
    intro a ha
    simp only [Bool.and_eq_true, beq_iff_eq, bne_iff_ne, ne_eq, not_and]
    intro hid hsid
    have : a = m := List.inj_on_of_nodup_map hnd ha hm hid
    subst this
    exact hsid hmsid

/-- Witness for C6: deleting session 0 of `dbW6` removes its two messages
and their lookups miss. -/
theorem c6_cascade_delete_witness :
    (remove_session dbW6 0).1 = some ⟨0, "A", 0, 0⟩
    ∧ ((remove_session dbW6 0).2.messages.filter fun m => m.session_id == 0) = []
    ∧ get_message (remove_session dbW6 0).2 2 = none := by
  obtain ⟨h1, h2, h3⟩ := c6_cascade_delete dbW6 0 ⟨0, "A", 0, 0⟩ (by decide) (by decide)
  exact ⟨h1, h2, h3 ⟨2, 0, MessageRole.user, "hello", 1⟩ (by decide) rfl⟩

/-- C10: an invalid session-id string makes `create_with_session` and
`get_by_session` fail during `uuid.UUID` normalization, before any store
access, so the store is untouched and no message row comes into being;
a valid string behaves exactly like the typed parsed value, and the stored
parent reference equals that value. -/
theorem c10_uuid_normalization (db : DB) (objIn : MessageCreate) (s : String) :
    (pyUUIDParse s = none →
        create_with_session db objIn (.fromString s) = .error uuidValueError
        ∧ get_by_session db (.fromString s) = .error uuidValueError)
    ∧ ∀ v, pyUUIDParse s = some v →
        create_with_session db objIn (.fromString s) = create_with_session db objIn (.typed v)
        ∧ get_by_session db (.fromString s) = get_by_session db (.typed v)
        ∧ ∃ row db2, create_with_session db objIn (.fromString s) = .ok (row, db2)
            ∧ row.session_id = v ∧ db2.messages = db.messages ++ [row] := by
  constructor
  · intro hnone
    constructor
    · simp only [create_with_session, normalizeSessionId, hnone]
    · simp only [get_by_session, normalizeSessionId, hnone]
  · intro v hsome
    have hc : create_with_session db objIn (.fromString s)
        = create_with_session db objIn (.typed v) := by
      simp only [create_with_session, normalizeSessionId, hsome]
    have hg : get_by_session db (.fromString s) = get_by_session db (.typed v) := by
      simp only [get_by_session, normalizeSessionId, hsome]
    refine ⟨hc, hg, (insertMessageRow db v objIn).1, (insertMessageRow db v objIn).2, ?_, rfl, rfl⟩
    rw [hc]
    rfl

/-- The empty needle is contained in every haystack. -/
theorem containsSub_nil : ∀ l : List Char, containsSub [] l = true
  | [] => rfl
  | _ :: rest => by simp [containsSub, containsSub_nil rest]

/-- C7: `search_by_title` with keywords equal up to letter case returns
identical results; the empty keyword matches all sessions (same output as
`get_all_sessions`); the output is ordered descending by `updated_at`,
strictly so when the stored `updated_at` values are distinct; and a
keyword matching no title yields the empty list, never an error. -/
theorem c7_search_case_insensitive (db : DB) (k1 k2 : String)
    (hk : strLower k1 = strLower k2) :
    search_by_title db k1 = search_by_title db k2
    ∧ search_by_title db "" = get_all_sessions db
    ∧ List.Pairwise sessGe (search_by_title db k1)
    ∧ ((db.sessions.map SessionRow.updated_at).Nodup →
        List.Pairwise (fun a b : SessionRow => b.updated_at < a.updated_at)
          (search_by_title db k1))
    ∧ ((∀ s ∈ db.sessions, ilikeContains s.title k1 = false) → search_by_title db k1 = []) := by
  refine ⟨?_, ?_, ?_, ?_, ?_⟩
  · unfold search_by_title
    congr 1
    apply List.filter_congr
    intro s _
    unfold ilikeContains
    rw [hk]
  · unfold search_by_title get_all_sessions
    congr 1
    have heq : db.sessions.filter (fun s => ilikeContains s.title "")
        = db.sessions.filter (fun _ => true) := by
      apply List.filter_congr
      intro s _
      show containsSub (strLower "").data (strLower s.title).data = true
      have h0 : (strLower "").data = ([] : List Char) := rfl
      rw [h0]
      exact containsSub_nil _
    rw [heq, List.filter_true]
  · exact List.sorted_insertionSort sessGe _
  · intro hnd
    have hsorted : List.Pairwise sessGe (search_by_title db k1) :=
      List.sorted_insertionSort sessGe _
    have hperm :=
      List.perm_insertionSort sessGe (db.sessions.filter fun s => ilikeContains s.title k1)
    have hsub : (db.sessions.filter fun s => ilikeContains s.title k1).Sublist db.sessions :=
      List.filter_sublist _
    have hnd2 :
        ((db.sessions.filter fun s => ilikeContains s.title k1).map
            SessionRow.updated_at).Nodup :=
      List.Nodup.sublist (hsub.map SessionRow.updated_at) hnd
    have hnd3 : ((search_by_title db k1).map SessionRow.updated_at).Nodup := by
      have hpm := (hperm.symm.map SessionRow.updated_at).nodup hnd2
      exact hpm
    have hne : List.Pairwise (fun a b : SessionRow => a.updated_at ≠ b.updated_at)
        (search_by_title db k1) := List.pairwise_map.mp hnd3
    exact (List.Pairwise.and hsorted hne).imp
      (fun h => lt_of_le_of_ne h.1 (Ne.symm h.2))
  · intro hnone
    unfold search_by_title
    have : db.sessions.filter (fun s => ilikeContains s.title k1) = [] := by
      rw [List.filter_eq_nil_iff]
      intro a ha
      simp [hnone a ha]
    rw [this]
    rfl

/-- Witness for C7 at "DOCKER"/"docker" over `dbW7`: identical result sets,
empty keyword returns everything, strict descending order. -/
theorem c7_search_case_insensitive_witness :
    search_by_title dbW7 "DOCKER" = search_by_title dbW7 "docker"
    ∧ search_by_title dbW7 "" = get_all_sessions dbW7
    ∧ List.Pairwise (fun a b : SessionRow => b.updated_at < a.updated_at)
        (search_by_title dbW7 "DOCKER") := by
  obtain ⟨h1, h2, _, h4, _⟩ := c7_search_case_insensitive dbW7 "DOCKER" "docker" (by decide)
  exact ⟨h1, h2, h4 (by decide)⟩

/-- Each bucket of the grouping fold is the initial bucket content followed
by exactly the date-matching sessions, in traversal order. -/
theorem group_foldl_spec (today : Int) (dayOfTime : Nat → Int) (all : List SessionRow) :
    ∀ g : GroupedSessions,
      (all.foldl (groupStep today dayOfTime) g).today
          = g.today ++ (all.filter fun s =>
              decide (dayOfTime s.created_at = today)).map sessionItemOf
      ∧ (all.foldl (groupStep today dayOfTime) g).yesterday
          = g.yesterday ++ (all.filter fun s =>
              decide (dayOfTime s.created_at = today - 1)).map sessionItemOf
      ∧ (all.foldl (groupStep today dayOfTime) g).previous30
          = g.previous30 ++ (all.filter fun s =>
              decide (today - 30 ≤ dayOfTime s.created_at
                ∧ dayOfTime s.created_at < today - 1)).map sessionItemOf := by
  induction all with
  | nil => intro g; simp
  | cons s rest ih =>
    intro g
    rw [List.foldl_cons]
    obtain ⟨ih1, ih2, ih3⟩ := ih (groupStep today dayOfTime g s)
    by_cases h1 : dayOfTime s.created_at = today
    · have h2 : ¬dayOfTime s.created_at = today - 1 := by omega
      have hg : groupStep today dayOfTime g s
          = { g with today := g.today ++ [sessionItemOf s] } := by
        simp [groupStep, h1, sessionItemOf]
      refine ⟨?_, ?_, ?_⟩
      · rw [ih1, hg, List.filter_cons_of_pos (by simp [h1])]
        simp [List.append_assoc]
      · rw [ih2, hg, List.filter_cons_of_neg (by simp [h2])]
      · rw [ih3, hg, List.filter_cons_of_neg (by simp; omega)]
    · by_cases h2 : dayOfTime s.created_at = today - 1
      · have hg : groupStep today dayOfTime g s
            = { g with yesterday := g.yesterday ++ [sessionItemOf s] } := by
          simp [groupStep, h1, h2, sessionItemOf]
        refine ⟨?_, ?_, ?_⟩
        · rw [ih1, hg, List.filter_cons_of_neg (by simp [h1])]
        · rw [ih2, hg, List.filter_cons_of_pos (by simp [h2])]
          simp [List.append_assoc]
        · rw [ih3, hg, List.filter_cons_of_neg (by simp; omega)]
      · by_cases h3 : today - 30 ≤ dayOfTime s.created_at
            ∧ dayOfTime s.created_at < today - 1
        · have hg : groupStep today dayOfTime g s
              = { g with previous30 := g.previous30 ++ [sessionItemOf s] } := by
            simp [groupStep, h1, h2, h3, sessionItemOf]
          refine ⟨?_, ?_, ?_⟩
          · rw [ih1, hg, List.filter_cons_of_neg (by simp [h1])]
          · rw [ih2, hg, List.filter_cons_of_neg (by simp [h2])]
          · rw [ih3, hg, List.filter_cons_of_pos (by simpa using h3)]
            simp [List.append_assoc]
        · have hg : groupStep today dayOfTime g s = g := by
            simp only [groupStep]
            rw [if_neg h1, if_neg h2, if_neg h3]
          refine ⟨?_, ?_, ?_⟩
          · rw [ih1, hg, List.filter_cons_of_neg (by simp [h1])]
          · rw [ih2, hg, List.filter_cons_of_neg (by simp [h2])]
          · rw [ih3, hg, List.filter_cons_of_neg (by simpa using h3)]

/-- C4: for every store, query and current date, the "Today" bucket holds
exactly the fetched sessions created today, "Yesterday" exactly those
created one calendar day before, "Previous 30 Days" exactly those created
between thirty days ago (inclusive) and yesterday (exclusive), each in the
repository's return order (descending `updated_at`); everything older
matches no filter and is in no bucket. -/
theorem c4_grouping (db : DB) (query : Option String) (today : Int)
    (dayOfTime : Nat → Int) :
    (get_sessions_grouped_by_time db query today dayOfTime).today
        = ((fetchSessions db query).filter fun s =>
            decide (dayOfTime s.created_at = today)).map sessionItemOf
    ∧ (get_sessions_grouped_by_time db query today dayOfTime).yesterday
        = ((fetchSessions db query).filter fun s =>
            decide (dayOfTime s.created_at = today - 1)).map sessionItemOf
    ∧ (get_sessions_grouped_by_time db query today dayOfTime).previous30
        = ((fetchSessions db query).filter fun s =>
            decide (today - 30 ≤ dayOfTime s.created_at
              ∧ dayOfTime s.created_at < today - 1)).map sessionItemOf := by
  have h := group_foldl_spec today dayOfTime (fetchSessions db query) ⟨[], [], []⟩
  simpa [get_sessions_grouped_by_time] using h

/-- Creating messages appends exactly the created rows to the store, in
creation order. -/
theorem messagesCreateAll_messages (sid : Nat) :
    ∀ (items : List MessageCreate) (db : DB),
      (messagesCreateAll db sid items).messages = db.messages ++ createdRows db sid items := by
  intro items
  induction items with
  | nil => intro db; simp [messagesCreateAll, createdRows]
  | cons it rest ih =>
    intro db
    simp only [messagesCreateAll, createdRows]
    rw [ih]
    simp [insertMessageRow, List.append_assoc]

/-- Every created row is stamped at or after the starting clock and carries
the requested session id. -/
theorem createdRows_mem (sid : Nat) :
    ∀ (items : List MessageCreate) (db : DB), ∀ r ∈ createdRows db sid items,
      db.now ≤ r.created_at ∧ r.session_id = sid := by
  intro items
  induction items with
  | nil => intro db r hr; simp [createdRows] at hr
  | cons it rest ih =>
    intro db r hr
    simp only [createdRows, List.mem_cons] at hr
    rcases hr with h | h
    · subst h
      exact ⟨Nat.le_refl _, rfl⟩
    · have := ih (insertMessageRow db sid it).2 r h
      refine ⟨Nat.le_trans ?_ this.1, this.2⟩
      simp [insertMessageRow]

/-- The created rows are sorted by creation time (the commit clock is
monotone). -/
theorem createdRows_sorted (sid : Nat) :
    ∀ (items : List MessageCreate) (db : DB),
      List.Pairwise msgLe (createdRows db sid items) := by
  intro items
  induction items with
  | nil => intro db; simp [createdRows]
  | cons it rest ih =>
    intro db
    simp only [createdRows]
    rw [List.pairwise_cons]
    refine ⟨?_, ih _⟩
    intro r hr
    have h1 := (createdRows_mem sid rest (insertMessageRow db sid it).2 r hr).1
    show (insertMessageRow db sid it).1.created_at ≤ r.created_at
    have h2 : (insertMessageRow db sid it).2.now = db.now + 1 := rfl
    have h3 : (insertMessageRow db sid it).1.created_at = db.now := rfl
    omega

/-- The created rows mirror the requested role/content pairs in order. -/
theorem createdRows_payload (sid : Nat) :
    ∀ (items : List MessageCreate) (db : DB),
      (createdRows db sid items).map (fun r => (r.role, r.content))
        = items.map (fun it => (it.role, it.content)) := by
  intro items
  induction items with
  | nil => intro db; simp [createdRows]
  | cons it rest ih =>
    intro db
    simp only [createdRows, List.map_cons]
    rw [ih]
    rfl

/-- C5: with the store's messages in non-decreasing creation order (the
clock invariant), `get_by_session` with a typed id returns exactly the
session's messages in insertion order and never an error; after creating a
sequence of messages for a session it returns the previous ones followed
by exactly the new rows in creation order, whose role/content pairs match
the requests; and a session with no messages (or no existence at all)
yields the empty sequence. -/
theorem c5_list_by_session (db : DB) (sid : Nat) (items : List MessageCreate)
    (hsorted : List.Pairwise msgLe db.messages)
    (hclock : ∀ m ∈ db.messages, m.created_at ≤ db.now) :
    get_by_session db (.typed sid) = .ok (db.messages.filter fun m => m.session_id == sid)
    ∧ get_by_session (messagesCreateAll db sid items) (.typed sid)
        = .ok ((db.messages.filter fun m => m.session_id == sid) ++ createdRows db sid items)
    ∧ (createdRows db sid items).map (fun r => (r.role, r.content))
        = items.map (fun it => (it.role, it.content))
    ∧ ((db.messages.filter fun m => m.session_id == sid) = [] →
        get_by_session db (.typed sid) = .ok []) := by
  have hpart1 : get_by_session db (.typed sid)
      = .ok (db.messages.filter fun m => m.session_id == sid) := by
    simp only [get_by_session, normalizeSessionId]
    rw [List.Sorted.insertionSort_eq (hsorted.filter _)]
  refine ⟨hpart1, ?_, createdRows_payload sid items db, ?_⟩
  · simp only [get_by_session, normalizeSessionId]
    rw [messagesCreateAll_messages, List.filter_append]
    have hkeep : (createdRows db sid items).filter (fun m => m.session_id == sid)
        = createdRows db sid items := by
      rw [List.filter_eq_self]
      intro r hr
      have := (createdRows_mem sid items db r hr).2
      simp [this]
    rw [hkeep]
    rw [List.Sorted.insertionSort_eq]
    show List.Pairwise msgLe _
    rw [List.pairwise_append]
    refine ⟨hsorted.filter _, createdRows_sorted sid items db, ?_⟩
    intro a ha b hb
    have h1 : a.created_at ≤ db.now := hclock a (List.mem_filter.mp ha).1
    have h2 := (createdRows_mem sid items db b hb).1
    exact Nat.le_trans h1 h2
  · intro hnil
    rw [hpart1, hnil]

/-- Witness for C5: creating two messages for session 7 in an empty store
returns exactly those two rows in order. -/
theorem c5_list_by_session_witness :
    get_by_session (messagesCreateAll dbEmpty 7
        [⟨MessageRole.user, "a"⟩, ⟨MessageRole.ai, "b"⟩]) (.typed 7)
      = .ok (createdRows dbEmpty 7 [⟨MessageRole.user, "a"⟩, ⟨MessageRole.ai, "b"⟩]) := by
  have h := c5_list_by_session dbEmpty 7 [⟨MessageRole.user, "a"⟩, ⟨MessageRole.ai, "b"⟩]
      (by simp [dbEmpty]) (by simp [dbEmpty])
  simpa using h.2.1

/-- Folding the yielded chunk items concatenates exactly the chunk
contents (skipping the empty ones changes nothing). -/
theorem sseStep_foldl_chunks :
    ∀ (chunks : List String) (acc : String),
      ((chunks.filter fun c => c != "").map SSEItem.chunk).foldl sseStep acc
        = chunks.foldl (fun a c => a ++ c) acc := by
  intro chunks
  induction chunks with
  | nil => intro acc; rfl
  | cons c rest ih =>
    intro acc
    by_cases hc : c = ""
    · subst hc
      rw [List.filter_cons_of_neg (by simp), List.foldl_cons, String.append_empty]
      exact ih acc
    · rw [List.filter_cons_of_pos (by simpa using hc), List.map_cons, List.foldl_cons,
        List.foldl_cons]
      exact ih (acc ++ c)

/-- On a stream that completes without failure, the consumption loop
produces exactly the concatenation of the streamed chunks. -/
theorem sseConcat_stream_ok (chunks : List String) :
    sseConcat (stream_ai_response ⟨chunks, none⟩) = String.join chunks := by
  show ((chunks.filter fun c => c != "").map SSEItem.chunk ++ []).foldl sseStep ""
      = String.join chunks
  rw [List.append_nil]
  exact sseStep_foldl_chunks chunks ""

/-- C2: a chat turn with no session id, whose model stream completes, runs
to completion: it creates one session (initially titled "New
Conversation"), persists exactly one `user` message carrying the prompt
and then exactly one `ai` message carrying the concatenated reply, sets
the session title to the stripped model summary - or to exactly "Untitled
Conversation" precisely when the title call fails, without failing the
turn - and returns the new session's id together with that final title.
The freshness hypothesis is the store invariant that the generated id is
unused; the collision hypothesis rules out the model legitimately
answering the literal fallback title. -/
theorem c2_new_session_turn (db : DB) (prompt : String) (chunks : List String)
    (titleResult : Except String String)
    (hfresh : ∀ s ∈ db.sessions, s.id ≠ db.nextId)
    (hcol : ∀ c, titleResult = .ok c → pyStrip c ≠ "Untitled Conversation") :
    process_chat_request db ⟨prompt, none⟩ ⟨chunks, none⟩ titleResult
      = (Except.ok ⟨String.join chunks, db.nextId, generate_session_title titleResult⟩,
          { sessions := db.sessions
              ++ [⟨db.nextId, generate_session_title titleResult, db.now, db.now + 3⟩],
            messages := db.messages
              ++ [⟨db.nextId + 1, db.nextId, MessageRole.user, prompt, db.now + 1⟩,
                  ⟨db.nextId + 2, db.nextId, MessageRole.ai, String.join chunks, db.now + 2⟩],
            nextId := db.nextId + 3,
            now := db.now + 5 })
    ∧ (generate_session_title titleResult = "Untitled Conversation"
        ↔ ∃ e, titleResult = Except.error e) := by
  constructor
  · have hmap : ∀ (t : String) (ts : Nat),
        (db.sessions ++ ([⟨db.nextId, "New Conversation", db.now, db.now⟩] : List SessionRow)).map
            (fun s : SessionRow => if s.id == db.nextId
              then { s with title := t, updated_at := ts } else s)
          = db.sessions ++ ([⟨db.nextId, t, db.now, ts⟩] : List SessionRow) := by
      intro t ts
      rw [List.map_append]
      congr 1
      · have hid : ∀ s ∈ db.sessions,
            (if s.id == db.nextId
              then ({ s with title := t, updated_at := ts } : SessionRow) else s) = id s := by
          intro s hs
          rw [if_neg (by simp [hfresh s hs])]
          rfl
        rw [List.map_congr_left hid, List.map_id]
      · simp
    simp only [process_chat_request, chatTurnBody, create_session, insertMessageRow,
      update_session, if_true]
    rw [sseConcat_stream_ok]
    simp only [hmap]
    simp [List.append_assoc]
  · constructor
    · intro h
      cases titleResult with
      | ok c => exact absurd h (hcol c rfl)
      | error e => exact ⟨e, rfl⟩
    · rintro ⟨e, he⟩
      subst he
      rfl

/-- Witness for C2 on an empty store with a two-chunk reply and a
successful title call. -/
theorem c2_new_session_turn_witness :
    process_chat_request dbEmpty ⟨"hi", none⟩ ⟨["a", "b"], none⟩ (Except.ok "My Title")
      = (Except.ok ⟨String.join ["a", "b"], 0, generate_session_title (Except.ok "My Title")⟩,
          ⟨[⟨0, generate_session_title (Except.ok "My Title"), 0, 3⟩],
            [⟨1, 0, MessageRole.user, "hi", 1⟩,
             ⟨2, 0, MessageRole.ai, String.join ["a", "b"], 2⟩],
            3, 5⟩) :=
  (c2_new_session_turn dbEmpty "hi" ["a", "b"] (Except.ok "My Title")
    (by simp [dbEmpty])
    (by intro c h; cases h; decide)).1

/-- C8 counterexample.  The claim says the turn fails with the
distinguishable session-not-found (`NotFound`) condition; the code raises
`ValueError` internally but its catch-all `except Exception` handler
rewraps it, so the caller receives the generic service failure, not a
`NotFound` condition. -/
theorem c8_not_found_counterexample :
    process_chat_request dbEmpty ⟨"hi", some 5⟩ ⟨["a"], none⟩ (Except.ok "T")
      = (Except.error (ChatError.serviceFailure "Service error: Session 5 not found"), dbEmpty)
    ∧ ∀ msg, (process_chat_request dbEmpty ⟨"hi", some 5⟩ ⟨["a"], none⟩ (Except.ok "T")).1
        ≠ Except.error (ChatError.notFound msg) := by
  refine ⟨rfl, ?_⟩
  intro msg h
  rw [show (process_chat_request dbEmpty ⟨"hi", some 5⟩ ⟨["a"], none⟩ (Except.ok "T")).1
      = Except.error (ChatError.serviceFailure "Service error: Session 5 not found")
      from rfl] at h
  exact ChatError.noConfusion (Except.error.inj h)

/-- C8 as amended: a chat turn with a session id matching no stored session
fails with the generic service-failure condition whose message carries the
session-not-found text, before any message is persisted (the store is
returned unchanged). -/
theorem c8_missing_session_generic_failure (db : DB) (req : ChatRequest) (sid : Nat)
    (hsid : req.sessionId = some sid)
    (hmiss : ∀ s ∈ db.sessions, s.id ≠ sid)
    (st : StreamResult) (titleResult : Except String String) :
    process_chat_request db req st titleResult
      = (Except.error (ChatError.serviceFailure
          ("Service error: Session " ++ toString sid ++ " not found")), db) := by
  have hget : get_session db sid = none := by
    unfold get_session
    rw [List.head?_eq_none_iff, List.filter_eq_nil_iff]
    intro s hs
    simp [hmiss s hs]
  cases req with
  | mk p si =>
    have hsi : si = some sid := hsid
    subst hsi
    simp only [process_chat_request, hget]

/-- Witness for C8's amended theorem at session id 9 over a one-session
store that does not contain it. -/
theorem c8_missing_session_generic_failure_witness :
    process_chat_request dbW6 ⟨"hello", some 9⟩ ⟨["x"], none⟩ (Except.error "down")
      = (Except.error (ChatError.serviceFailure "Service error: Session 9 not found"), dbW6) := by
  have h := c8_missing_session_generic_failure dbW6 ⟨"hello", some 9⟩ 9 rfl
      (by decide) ⟨["x"], none⟩ (Except.error "down")
  simpa using h

/-- Witness for C10: "not-a-uuid" is rejected with the store untouched,
while the canonical rendering of 42 behaves like the typed value 42. -/
theorem c10_uuid_normalization_witness :
    create_with_session dbEmpty ⟨MessageRole.user, "x"⟩ (.fromString "not-a-uuid")
        = .error uuidValueError
    ∧ create_with_session dbEmpty ⟨MessageRole.user, "x"⟩
          (.fromString "00000000-0000-0000-0000-00000000002a")
        = create_with_session dbEmpty ⟨MessageRole.user, "x"⟩ (.typed 42) := by
  refine ⟨((c10_uuid_normalization dbEmpty ⟨MessageRole.user, "x"⟩ "not-a-uuid").1
      (by decide)).1, ?_⟩
  exact ((c10_uuid_normalization dbEmpty ⟨MessageRole.user, "x"⟩
      "00000000-0000-0000-0000-00000000002a").2 42 (by decide)).1
